import Mathlib

/-!
Verification of the tasty-sharedauth TOTP code lifecycle and share-link core.

The definitions below are a shallow embedding of the TypeScript source:
* `SharedGroupView.tsx` — share-link validation (`verifyShareLink`), countdown
  formatting (`formatTimeRemaining`), the realtime link-deletion handler
  (`validateLinkExists`) and the initial load sequence (`loadSharedGroup`);
* `TOTPDisplay` — the code publisher refresh loop (`updateCode`, `updateTimer`),
  with the `isActive` flag sampled at every asynchronous continuation point
  modelled as explicit boolean parameters, and the results of the two awaited
  backend calls (`generateTOTP`, `updateModelCode`) passed in as `Except`
  values (`Except.error` standing for a thrown exception).

Times are modelled as milliseconds since the epoch (`Int`); `Date` comparison
in the source is comparison of these integers.
-/

namespace Tasty

/-- Access type of a share link (`access_type: 'anyone' | 'restricted'`). -/
inductive AccessType where
  | anyone
  | restricted
  deriving DecidableEq, Repr

/-- The `ShareLink` row shape from `SharedGroupView.tsx`. -/
structure ShareLink where
  id : String
  group_id : String
  access_token : String
  expires_at : Option Int
  one_time_view : Bool
  views_count : Nat
  access_type : AccessType
  allowed_emails : Option (List String)
  deriving DecidableEq, Repr

/-- The `Code` row shape from `SharedGroupView.tsx`. -/
structure Code where
  id : String
  group_id : String
  code : String
  created_at : Int
  expires_at : Int
  deriving DecidableEq, Repr

/-- The `SharedGroup` shape from `SharedGroupView.tsx`. -/
structure SharedGroup where
  id : String
  title : String
  description : Option String
  deriving DecidableEq, Repr

/-- Classification of a share link by the validator (spec section 4.3). -/
inductive VerifyResult where
  | Valid
  | Expired
  | AccessDenied
  | NotFound
  deriving DecidableEq, Repr

/-- `email.toLowerCase()` from the source, modelled character-wise so that it
reduces definitionally. -/
def toLowerStr (s : String) : String :=
  String.mk (s.data.map Char.toLower)

/-- The expiry check of `verifyShareLink` (`SharedGroupView.tsx` lines
260-264): `shareLink.expires_at && new Date(shareLink.expires_at) < new Date()`
— note the strict `<`. -/
def verifyExpiry (link : ShareLink) (now : Int) : VerifyResult :=
  match link.expires_at with
  | some t => if t < now then VerifyResult.Expired else VerifyResult.Valid
  | none => VerifyResult.Valid

/-- The pure decision core of `verifyShareLink` (`SharedGroupView.tsx` lines
243-266), applied to an already-fetched link row.  The source checks access
restrictions first (lines 244-258): for a restricted link it requires a
session email, lowercases it (`session.user.email.toLowerCase()`), defaults
`allowed_emails` to `[]` (`shareLink.allowed_emails || []`) and tests
membership with `includes`; only then does it check expiry (lines 260-264). -/
def verifyShareLink (link : ShareLink) (email : Option String) (now : Int) :
    VerifyResult :=
  if link.access_type = AccessType.restricted then
    match email with
    | none => VerifyResult.AccessDenied
    | some e =>
      if toLowerStr e ∈ link.allowed_emails.getD [] then
        verifyExpiry link now
      else VerifyResult.AccessDenied
  else verifyExpiry link now

/-- `verifyShareLink` lifted to the fetched row being possibly absent
(`maybeSingle` returning no row, or a query error: lines 236-240). -/
def verifyFetched (link : Option ShareLink) (email : Option String)
    (now : Int) : VerifyResult :=
  match link with
  | none => VerifyResult.NotFound
  | some l => verifyShareLink l email now

/-- The `(returned boolean, error message set)` pair produced by a run of
`verifyShareLink` in the source: on each failing branch it calls `setError`
with a branch-specific message and returns `false`; on success it returns
`true` without touching the error state. -/
def verifyShareLinkRun (link : Option ShareLink) (email : Option String)
    (now : Int) : Bool × Option String :=
  match verifyFetched link email now with
  | VerifyResult.NotFound =>
      (false, some "This share link is invalid or has been deleted")
  | VerifyResult.AccessDenied =>
      match email with
      | none => (false, some "You must be logged in to access this link")
      | some e =>
          (false, some ("Access denied. Your email (" ++ toLowerStr e ++
            ") is not authorized to view this link."))
  | VerifyResult.Expired => (false, some "This share link has expired")
  | VerifyResult.Valid => (true, none)

/-- `formatTimeRemaining` from `SharedGroupView.tsx` lines 50-66, on
non-negative millisecond inputs.  Each unit is derived from the previous one
by integer division, exactly as in the source. -/
def formatTimeRemaining (ms : Nat) : String :=
  let seconds := ms / 1000
  let minutes := seconds / 60
  let hours := minutes / 60
  let days := hours / 24
  if days > 0 then
    toString days ++ "d " ++ toString (hours % 24) ++ "h"
  else if hours > 0 then
    toString hours ++ "h " ++ toString (minutes % 60) ++ "m"
  else if minutes > 0 then
    toString minutes ++ "m " ++ toString (seconds % 60) ++ "s"
  else
    toString seconds ++ "s"

/-- The countdown format as the spec words it: each unit computed directly
from the millisecond input, collapsing to the largest nonzero unit pair. -/
def formatTimeRemainingSpec (ms : Nat) : String :=
  let days := ms / 86400000
  let hours := ms / 3600000
  let minutes := ms / 60000
  let seconds := ms / 1000
  if days > 0 then
    toString days ++ "d " ++ toString (hours % 24) ++ "h"
  else if hours > 0 then
    toString hours ++ "h " ++ toString (minutes % 60) ++ "m"
  else if minutes > 0 then
    toString minutes ++ "m " ++ toString (seconds % 60) ++ "s"
  else
    toString seconds ++ "s"

/-- The view state of `SharedGroupView` (the `useState` hooks at lines
35-42 that the embedded operations touch). -/
structure SharedViewState where
  loading : Bool
  error : Option String
  group : Option SharedGroup
  latestCode : Option Code
  shareLink : Option ShareLink
  wasDeleted : Bool
  deriving DecidableEq, Repr

/-- The backend calls that the shared-view controller can issue. -/
inductive BackendOp where
  | getSession
  | getShareLink
  | handleShareLinkView
  | fetchGroup
  | fetchCodes
  | checkLinkExists
  deriving DecidableEq, Repr

/-- `validateLinkExists` (`SharedGroupView.tsx` lines 69-91): re-query the
`shared_links` row by id; on a query error, log and leave the state alone; if
the row still exists, leave the state alone; if it is gone, mark the view
deleted, set the deletion error message and drop the group data.  The query
result is `Except.error` for a query error, `Except.ok (some id)` when a row
was found and `Except.ok none` when none was. -/
def validateLinkExists (query : Except String (Option String))
    (st : SharedViewState) : SharedViewState :=
  match query with
  | Except.error _ => st
  | Except.ok (some _) => st
  | Except.ok none =>
      { st with
        wasDeleted := true
        error := some "This shared link has been deleted by the administrator."
        group := none }

/-- The realtime link-deletion handler (`SharedGroupView.tsx` lines 102-118):
on a DELETE event for the watched `shared_links` row it does not trust the
payload, it invokes `validateLinkExists`, which issues the existence query. -/
def linkDeleteHandler (query : Except String (Option String))
    (st : SharedViewState) : SharedViewState × List BackendOp :=
  (validateLinkExists query st, [BackendOp.checkLinkExists])

/-- `loadSharedGroup` (`SharedGroupView.tsx` lines 275-347) with the results
of the backend calls passed in as parameters, returning the resulting view
state together with the list of backend operations actually issued, in order:
* validate the link (`verifyShareLink`: a session read and a link fetch, which
  sets the error message itself on failure) and stop on failure;
* on success call the `handle_share_link_view` stored procedure; an RPC error
  or a missing link in its reply throws, caught below;
* store the returned link, fetch the group (an error throws), fetch the latest
  code (an error is only logged, otherwise `latestCode` is set to the first
  row or `null`), then store the group;
* a thrown error sets the error message; `loading` is cleared in `finally`. -/
def loadSharedGroup (fetched : Option ShareLink) (email : Option String)
    (now : Int) (rpc : Except String (Option ShareLink))
    (grp : Except String SharedGroup) (codes : Except String (Option Code))
    (st : SharedViewState) : SharedViewState × List BackendOp :=
  let v := verifyShareLinkRun fetched email now
  let verifyOps := [BackendOp.getSession, BackendOp.getShareLink]
  if v.1 = false then
    ({ st with error := v.2, loading := false }, verifyOps)
  else
    match rpc with
    | Except.error msg =>
        ({ st with error := some msg, loading := false },
         verifyOps ++ [BackendOp.handleShareLinkView])
    | Except.ok none =>
        ({ st with
            error := some "Share link not found or already used"
            loading := false },
         verifyOps ++ [BackendOp.handleShareLinkView])
    | Except.ok (some link) =>
        let st1 := { st with shareLink := some link }
        match grp with
        | Except.error msg =>
            ({ st1 with error := some msg, loading := false },
             verifyOps ++ [BackendOp.handleShareLinkView, BackendOp.fetchGroup])
        | Except.ok g =>
            let allOps := verifyOps ++ [BackendOp.handleShareLinkView,
              BackendOp.fetchGroup, BackendOp.fetchCodes]
            match codes with
            | Except.error _ =>
                ({ st1 with group := some g, loading := false }, allOps)
            | Except.ok c =>
                ({ st1 with
                    latestCode := c
                    group := some g
                    loading := false }, allOps)

/-- The publisher state of `TOTPDisplay` (the `code`, `updateError` and
`timeRemaining` hooks). -/
structure PubState where
  code : String
  updateError : Bool
  timeRemaining : Nat
  deriving DecidableEq, Repr

/-- `updateCode` from `TOTPDisplay` (lines 23-48).  `a1` is the `isActive`
read at entry, `a2` the one read after `await generateTOTP` resolves (also
the one the `catch` block reads when generation throws), `a3` the one read
after `await updateModelCode` resolves (also the one the `catch` block reads
when persistence throws).  `gen` is the result of `generateTOTP` and
`persist` the result of `updateModelCode`, with `Except.error` standing for a
thrown exception.  On a throw the catch block sets `updateError` and sets the
displayed code to the literal string `"Error"`. -/
def updateCode (a1 a2 a3 : Bool) (gen : Except Unit String)
    (persist : Except Unit Bool) (st : PubState) : PubState :=
  if a1 = false then st
  else
    match gen with
    | Except.error _ =>
        if a2 = false then st
        else { st with updateError := true, code := "Error" }
    | Except.ok newCode =>
        if a2 = false then st
        else
          let st1 := { st with code := newCode }
          match persist with
          | Except.error _ =>
              if a3 = false then st1
              else { st1 with updateError := true, code := "Error" }
          | Except.ok updated =>
              if a3 = false then st1
              else if updated = false then { st1 with updateError := true }
              else { st1 with updateError := false }

/-- `updateTimer` from `TOTPDisplay` (lines 50-59): guarded by `isActive`, it
stores the freshly computed remaining time and triggers `updateCode` exactly
when that value is `30` or `0`.  The boolean in the result records whether a
regeneration was triggered. -/
def updateTimer (isActive : Bool) (remaining : Nat) (st : PubState) :
    PubState × Bool :=
  if isActive = false then (st, false)
  else ({ st with timeRemaining := remaining },
        remaining == 30 || remaining == 0)

end Tasty

namespace Tasty

/-- A plain unrestricted, non-expiring share link, used as a base for
concrete instances. -/
def sampleLink : ShareLink :=
  { id := "link-1", group_id := "group-1", access_token := "tok",
    expires_at := none, one_time_view := false, views_count := 0,
    access_type := AccessType.anyone, allowed_emails := none }

/-- The initial view state of `SharedGroupView` (lines 35-42). -/
def initialState : SharedViewState :=
  { loading := true, error := none, group := none, latestCode := none,
    shareLink := none, wasDeleted := false }

/-- When the access restrictions pass (link open to anyone, or the lowercased
requester email is in the allow-list), `verifyShareLink` reduces to the
expiry check. -/
theorem verifyShareLink_eq_verifyExpiry_of_access (link : ShareLink)
    (email : Option String) (now : Int)
    (h : link.access_type = AccessType.anyone
      ∨ ∃ e, email = some e ∧ toLowerStr e ∈ link.allowed_emails.getD []) :
    verifyShareLink link email now = verifyExpiry link now := by
  rcases h with ha | ⟨e, he, hmem⟩
  · simp [verifyShareLink, ha]
  · subst he
    unfold verifyShareLink
    split
    · simp [hmem]
    · rfl

/-- A failing run of `verifyShareLink` always sets an error message. -/
theorem verifyShareLinkRun_fail_sets_error (link : Option ShareLink)
    (email : Option String) (now : Int)
    (h : (verifyShareLinkRun link email now).1 = false) :
    (verifyShareLinkRun link email now).2 ≠ none := by
  cases hv : verifyFetched link email now <;>
    simp [verifyShareLinkRun, hv] at h ⊢
  cases email <;> simp

end Tasty

namespace Tasty

/-- Claim C1 counterexample: a restricted link that is already expired
(`expires_at = 5 ≤ now = 10`) with an absent requester email is classified
`AccessDenied`, not `Expired`: the source checks access restrictions before
expiry. -/
theorem C1_counterexample :
    (5 : Int) ≤ 10
    ∧ verifyShareLink
        { sampleLink with
            access_type := AccessType.restricted
            expires_at := some 5 } none 10 = VerifyResult.AccessDenied
    ∧ verifyShareLink
        { sampleLink with
            access_type := AccessType.restricted
            expires_at := some 5 } none 10 ≠ VerifyResult.Expired := by
  decide

/-- Claim C1 (amended): access restrictions are checked before expiry, so for
every restricted link and every time — including when `expires_at` is set and
`≤ now` — an absent requester email, or an email whose lowercase form is not
in the allow-list, yields `AccessDenied`, never `Expired`. -/
theorem C1_access_checked_before_expiry :
    ∀ (link : ShareLink) (now : Int),
      link.access_type = AccessType.restricted →
      verifyShareLink link none now = VerifyResult.AccessDenied
      ∧ ∀ e : String, toLowerStr e ∉ link.allowed_emails.getD [] →
          verifyShareLink link (some e) now = VerifyResult.AccessDenied := by
  intro link now hres
  constructor
  · simp [verifyShareLink, hres]
  · intro e he
    simp [verifyShareLink, hres, he]

/-- Claim C1 witness: the amended theorem applied to a concrete expired
restricted link and an unauthorized email. -/
theorem C1_access_checked_before_expiry_witness :
    verifyShareLink
      { sampleLink with
          access_type := AccessType.restricted
          expires_at := some 5
          allowed_emails := some ["alice@x.com"] }
      (some "Bob@X.com") 10 = VerifyResult.AccessDenied :=
  (C1_access_checked_before_expiry
    { sampleLink with
        access_type := AccessType.restricted
        expires_at := some 5
        allowed_emails := some ["alice@x.com"] } 10 (by decide)).2
    "Bob@X.com" (by decide)

/-- Claim C4 counterexample: the requester email `alice@x.com` matches the
stored entry `Alice@X.com` case-insensitively (their lowercase forms agree),
yet the source denies access: only the requester side is lowercased, the
stored entries are compared verbatim. -/
theorem C4_counterexample :
    toLowerStr "alice@x.com" = toLowerStr "Alice@X.com"
    ∧ verifyShareLink
        { sampleLink with
            access_type := AccessType.restricted
            allowed_emails := some ["Alice@X.com"] }
        (some "alice@x.com") 0 = VerifyResult.AccessDenied := by
  decide

/-- Claim C4 (amended): for every restricted link and requester with a
present email, the access check passes (the result is not `AccessDenied`) iff
the requester's email, lowercased, is verbatim an entry of `allowed_emails`;
the stored entries themselves are not case-folded. -/
theorem C4_requester_email_lowercased_only :
    ∀ (link : ShareLink) (e : String) (now : Int),
      link.access_type = AccessType.restricted →
      (verifyShareLink link (some e) now = VerifyResult.AccessDenied
        ↔ toLowerStr e ∉ link.allowed_emails.getD []) := by
  intro link e now hres
  by_cases hmem : toLowerStr e ∈ link.allowed_emails.getD []
  · simp [verifyShareLink, hres, hmem]
    cases hexp : link.expires_at with
    | none => simp [verifyExpiry, hexp]
    | some t =>
      simp [verifyExpiry, hexp]
      split <;> simp
  · simp [verifyShareLink, hres, hmem]

/-- Claim C4 witness: the amended theorem applied to a concrete restricted
link, authorized lowercase entry, exercising both directions of the iff. -/
theorem C4_requester_email_lowercased_only_witness :
    (verifyShareLink
      { sampleLink with
          access_type := AccessType.restricted
          allowed_emails := some ["alice@x.com"] }
      (some "ALICE@X.com") 0 = VerifyResult.AccessDenied
     ↔ toLowerStr "ALICE@X.com" ∉ ["alice@x.com"]) :=
  C4_requester_email_lowercased_only
    { sampleLink with
        access_type := AccessType.restricted
        allowed_emails := some ["alice@x.com"] }
    "ALICE@X.com" 0 (by decide)

/-- Claim C5 counterexample: at the boundary instant `expires_at = now = 10`
the source still classifies the link `Valid` (the comparison is the strict
`new Date(expires_at) < new Date()`), whereas the claim demands `Expired`. -/
theorem C5_counterexample :
    verifyShareLink { sampleLink with expires_at := some 10 } none 10
      = VerifyResult.Valid
    ∧ verifyShareLink { sampleLink with expires_at := some 10 } none 10
      ≠ VerifyResult.Expired := by
  decide

/-- Claim C5 (amended): for every link whose `expires_at` is set and whose
access checks pass, the classification is `Expired` exactly when
`expires_at < now` strictly; at the boundary instant `expires_at = now` the
link is still `Valid`. -/
theorem C5_expiry_strict :
    ∀ (link : ShareLink) (email : Option String) (now t : Int),
      link.expires_at = some t →
      (link.access_type = AccessType.anyone
        ∨ ∃ e, email = some e ∧ toLowerStr e ∈ link.allowed_emails.getD []) →
      (verifyShareLink link email now = VerifyResult.Expired ↔ t < now) := by
  intro link email now t hexp hacc
  rw [verifyShareLink_eq_verifyExpiry_of_access link email now hacc]
  by_cases h : t < now <;> simp [verifyExpiry, hexp, h]

/-- Claim C5 witness: the amended theorem applied to a concrete open link
expired strictly before `now`. -/
theorem C5_expiry_strict_witness :
    verifyShareLink { sampleLink with expires_at := some 5 } none 10
      = VerifyResult.Expired :=
  (C5_expiry_strict { sampleLink with expires_at := some 5 } none 10 5
    rfl (Or.inl rfl)).mpr (by decide)

/-- Claim C10: a restricted link with a null `allowed_emails` denies every
requester — `shareLink.allowed_emails || []` turns the null list into the
empty allow-list, never into allow-all. -/
theorem C10_null_allowlist_denies_all :
    ∀ (link : ShareLink) (email : Option String) (now : Int),
      link.access_type = AccessType.restricted →
      link.allowed_emails = none →
      verifyShareLink link email now = VerifyResult.AccessDenied := by
  intro link email now hres hnull
  cases email with
  | none => simp [verifyShareLink, hres]
  | some e => simp [verifyShareLink, hres, hnull]

/-- Claim C10 witness: the theorem applied to a concrete restricted link with
null allow-list and an authenticated requester. -/
theorem C10_null_allowlist_denies_all_witness :
    verifyShareLink { sampleLink with access_type := AccessType.restricted }
      (some "alice@x.com") 0 = VerifyResult.AccessDenied :=
  C10_null_allowlist_denies_all
    { sampleLink with access_type := AccessType.restricted }
    (some "alice@x.com") 0 rfl rfl

end Tasty

namespace Tasty

/-- Claim C2: once the publisher is deactivated (`isActive` flipped to
`false` by the cleanup), no state mutation occurs after deactivation.  If the
flag read at entry or after the pending generate is `false`, the state is
fully unchanged; if deactivation happens while the persist is pending (flag
`false` at the post-persist continuation), the final state is exactly the
state as of deactivation time — the entry state with the already-displayed
fresh code — independently of how the persist later resolves; and a timer
tick after deactivation changes nothing and triggers nothing. -/
theorem C2_no_mutation_after_deactivation :
    ∀ (a2 a3 : Bool) (gen : Except Unit String) (persist : Except Unit Bool)
      (st : PubState) (c : String) (r : Nat),
      updateCode false a2 a3 gen persist st = st
      ∧ updateCode true false a3 gen persist st = st
      ∧ updateCode true true false (Except.ok c) persist st
        = { st with code := c }
      ∧ updateTimer false r st = (st, false) := by
  intro a2 a3 gen persist st c r
  refine ⟨?_, ?_, ?_, ?_⟩
  · simp [updateCode]
  · cases gen <;> simp [updateCode]
  · cases persist <;> simp [updateCode]
  · simp [updateTimer]

/-- Claim C3 counterexample: when the persist step throws
(`updateModelCode` raising, modelled by `Except.error ()`), the catch block
replaces the freshly generated code `123456` with the literal `"Error"` —
the fresh code does not remain displayed, contradicting the claim for the
thrown-error case. -/
theorem C3_counterexample :
    (updateCode true true true (Except.ok "123456") (Except.error ())
        { code := "", updateError := false, timeRemaining := 30 }).code
      = "Error"
    ∧ ("Error" : String) ≠ "123456" := by
  decide

/-- Claim C3 (amended): persistence failure is non-fatal and the refresh
cycle always returns a defined next state, but the two failure modes differ:
when `updateModelCode` returns `false`, the stale-code flag is set and the
freshly generated code remains displayed; when an error is thrown, the stale
flag is set and the displayed code becomes the literal `"Error"`.  A
subsequent cycle whose persist succeeds clears the stale flag — the only
retry is the next scheduled regeneration. -/
theorem C3_persist_failure_nonfatal :
    ∀ (st : PubState) (c : String),
      updateCode true true true (Except.ok c) (Except.ok false) st
        = { st with code := c, updateError := true }
      ∧ updateCode true true true (Except.ok c) (Except.error ()) st
        = { st with code := "Error", updateError := true }
      ∧ updateCode true true true (Except.ok c) (Except.ok true) st
        = { st with code := c, updateError := false } := by
  intro st c
  refine ⟨?_, ?_, ?_⟩ <;> simp [updateCode]

/-- Claim C9: on an active 1-second tick, a regeneration is triggered iff the
computed remaining time is exactly `30` or exactly `0`; the tick itself only
records the remaining time in the displayed countdown, whatever the value. -/
theorem C9_tick_triggers_iff_30_or_0 :
    ∀ (r : Nat) (st : PubState),
      ((updateTimer true r st).2 = true ↔ (r = 30 ∨ r = 0))
      ∧ (updateTimer true r st).1 = { st with timeRemaining := r } := by
  intro r st
  constructor
  · simp [updateTimer]
  · simp [updateTimer]

/-- Claim C8: `formatTimeRemaining` collapses every non-negative millisecond
input to the largest nonzero unit pair, agreeing with the directly-computed
unit decomposition, and produces the four specified sample outputs. -/
theorem C8_formatTimeRemaining_spec :
    (∀ ms : Nat, formatTimeRemaining ms = formatTimeRemainingSpec ms)
    ∧ formatTimeRemaining 90000 = "1m 30s"
    ∧ formatTimeRemaining 3661000 = "1h 1m"
    ∧ formatTimeRemaining 45000 = "45s"
    ∧ formatTimeRemaining 0 = "0s" := by
  refine ⟨?_, rfl, rfl, rfl, rfl⟩
  intro ms
  simp only [formatTimeRemaining, formatTimeRemainingSpec]
  norm_num [Nat.div_div_eq_div_mul]

end Tasty

namespace Tasty

/-- Claim C6: when link validation fails, `loadSharedGroup` never issues the
atomic `handle_share_link_view` register-view call, the controller ends in
the error terminal state (an error message is set), no group data is set
(`group` is left as it was — `none` from the initial state), and loading is
cleared. -/
theorem C6_validation_gates_register_view :
    ∀ (fetched : Option ShareLink) (email : Option String) (now : Int)
      (rpc : Except String (Option ShareLink))
      (grp : Except String SharedGroup) (codes : Except String (Option Code))
      (st : SharedViewState),
      (verifyShareLinkRun fetched email now).1 = false →
      BackendOp.handleShareLinkView ∉
        (loadSharedGroup fetched email now rpc grp codes st).2
      ∧ (loadSharedGroup fetched email now rpc grp codes st).1.error ≠ none
      ∧ (loadSharedGroup fetched email now rpc grp codes st).1.group = st.group
      ∧ (loadSharedGroup fetched email now rpc grp codes st).1.loading
        = false := by
  intro f e n rpc grp codes st h
  have hmsg := verifyShareLinkRun_fail_sets_error f e n h
  refine ⟨?_, ?_, ?_, ?_⟩ <;> simp [loadSharedGroup, h]
  exact hmsg

/-- Claim C6 witness: the theorem applied to a concrete failed validation (no
link row found), with a register-view reply that would have succeeded. -/
theorem C6_validation_gates_register_view_witness :
    BackendOp.handleShareLinkView ∉
      (loadSharedGroup none none 0 (Except.ok (some sampleLink))
        (Except.error "boom") (Except.ok none) initialState).2
    ∧ (loadSharedGroup none none 0 (Except.ok (some sampleLink))
        (Except.error "boom") (Except.ok none) initialState).1.error ≠ none
    ∧ (loadSharedGroup none none 0 (Except.ok (some sampleLink))
        (Except.error "boom") (Except.ok none) initialState).1.group
      = initialState.group
    ∧ (loadSharedGroup none none 0 (Except.ok (some sampleLink))
        (Except.error "boom") (Except.ok none) initialState).1.loading
      = false :=
  C6_validation_gates_register_view none none 0 (Except.ok (some sampleLink))
    (Except.error "boom") (Except.ok none) initialState (by decide)

/-- Claim C7: the realtime link-deletion handler issues the existence
re-query rather than trusting the event, and transitions the view to the
terminal deleted error state exactly when that query reports the row absent
(`Except.ok none`); on a query error or a still-existing row the view state
is unchanged. -/
theorem C7_delete_event_requeries :
    ∀ (q : Except String (Option String)) (st : SharedViewState),
      (linkDeleteHandler q st).2 = [BackendOp.checkLinkExists]
      ∧ (q = Except.ok none →
          (linkDeleteHandler q st).1 =
            { st with
                wasDeleted := true
                error := some
                  "This shared link has been deleted by the administrator."
                group := none })
      ∧ (q ≠ Except.ok none → (linkDeleteHandler q st).1 = st) := by
  intro q st
  refine ⟨rfl, ?_, ?_⟩
  · intro hq
    subst hq
    rfl
  · intro hq
    cases q with
    | error s => rfl
    | ok o =>
      cases o with
      | none => exact absurd rfl hq
      | some _ => rfl

/-- Claim C7 witness: the theorem applied to a concrete row-absent query
result on the initial view state. -/
theorem C7_delete_event_requeries_witness :
    (linkDeleteHandler (Except.ok (none : Option String)) initialState).1 =
      { initialState with
          wasDeleted := true
          error := some
            "This shared link has been deleted by the administrator."
          group := none } :=
  (C7_delete_event_requeries (Except.ok none) initialState).2.1 rfl

end Tasty
